import Mathlib

/-!
Verification development for the django-mongogeneric formset mixins
(src/mongogeneric/formsets.py).

The Python classes are shallowly embedded as pure Lean functions over an
explicit view-state record.  Python dicts of keyword arguments become
association lists with replace-or-append assignment; the external
document-formset library (mongodbforms) is opaque, so a constructed
formset is modelled as the record of every argument handed to the factory
and to the formset class, and the external methods is_valid / save are
passed in as oracle function parameters.  Method resolution order is
resolved statically: each composed view class gets its own specialisation
of the methods it inherits.
-/

set_option autoImplicit false

namespace MongoGeneric

/-- HTTP methods routed by ProcessFormSetView (other verbs are rejected by
the host framework before reaching this layer). -/
inductive Method where
  | GET
  | POST
  | PUT
deriving DecidableEq, Repr

/-- Submitted form data (request.POST), as key-value pairs. -/
abbrev FormData := List (String × String)

/-- Uploaded files (request.FILES), as name-content pairs. -/
abbrev FileData := List (String × String)

/-- A document is identified by an id; a queryset result is a list of them. -/
abbrev Doc := Nat

/-- An HTTP request as seen by the mixins: method, body data, files and the
full path of the request. -/
structure Request where
  method : Method
  POST : FormData
  FILES : FileData
  full_path : String
deriving DecidableEq, Repr

/-- Values that can occur in a Python keyword-argument dict in this code. -/
inductive PyVal where
  | str (s : String)
  | num (n : Nat)
  | bool (b : Bool)
  | none
  | strList (l : List String)
  | formData (d : FormData)
  | fileData (d : FileData)
  | docList (l : List Doc)
  | cls (id : Nat)
  | callback (id : Nat)
deriving DecidableEq, Repr

/-- A Python None-or-integer value (used for max_num). -/
def PyVal.ofOptNat : Option Nat → PyVal
  | Option.none => PyVal.none
  | Option.some n => PyVal.num n

/-- A Python None-or-list-of-names value (used for fields / exclude). -/
def PyVal.ofOptStrList : Option (List String) → PyVal
  | Option.none => PyVal.none
  | Option.some l => PyVal.strList l

/-- A Python None-or-callable value (used for formfield_callback). -/
def PyVal.ofOptCallback : Option Nat → PyVal
  | Option.none => PyVal.none
  | Option.some c => PyVal.callback c

/-- A Python dict, as an association list in insertion order. -/
abbrev Dict (α : Type) := List (String × α)

/-- Python dict assignment d[k] = v: replace the entry in place if the key
is present, otherwise append at the end. -/
def Dict.set {α : Type} : Dict α → String → α → Dict α
  | [], k, v => [(k, v)]
  | p :: d, k, v => if p.1 = k then (k, v) :: d else p :: Dict.set d k v

/-- Python dict lookup d[k] (first entry with the key). -/
def Dict.get? {α : Type} : Dict α → String → Option α
  | [], _ => Option.none
  | p :: d, k => if p.1 = k then Option.some p.2 else Dict.get? d k

/-- Python d.update(e): assign every entry of e into d, left to right. -/
def Dict.update {α : Type} (d e : Dict α) : Dict α :=
  e.foldl (fun d p => Dict.set d p.1 p.2) d

/-- The state of a view instance: the declarative class-level configuration
of BaseFormSetMixin / DocumentFormSetMixin, the current request, and the
request-scoped object_list attribute (absent or None encoded as none).
queryset_result is what the inherited get_queryset() returns, and
context_object_name_val what the inherited get_context_object_name()
returns; both live in mongogeneric.list / the host framework, outside this
file of the repository. -/
structure ViewState where
  document : Nat
  initial : List FormData
  form_class : Option Nat
  formset_class : Option Nat
  success_url : Option String
  extra : Nat
  max_num : Option Nat
  can_order : Bool
  can_delete : Bool
  exclude : Option (List String)
  fields : Option (List String)
  formfield_callback : Option Nat
  context_object_name_val : Option String
  queryset_result : List Doc
  request : Request
  object_list : Option (List Doc)
deriving DecidableEq, Repr

/-- Modelled from the spec: MultipleDocumentsMixin.get_queryset (defined in
mongogeneric/list.py, which is not part of the sources here) evaluates the
configured filter/sort criteria and returns the candidate document set; we
record that result in the state. -/
def MultipleDocumentsMixin.get_queryset (s : ViewState) : List Doc :=
  s.queryset_result

/-- Modelled from the spec: MultipleDocumentsMixin.get_context_object_name
(mongogeneric/list.py, not in the sources here) returns the model-specific
context key when one is available, else None. -/
def MultipleDocumentsMixin.get_context_object_name (s : ViewState) : Option String :=
  s.context_object_name_val

/-- Modelled from the spec: ContextMixin.get_context_data
(mongogeneric/compat.py, not in the sources here) hands the caller-supplied
keyword entries through to the template context. -/
def ContextMixin.get_context_data {α : Type} (kwargs : Dict α) : Dict α := kwargs

/-- BaseFormSetMixin.get_initial: returns the configured initial values. -/
def BaseFormSetMixin.get_initial (s : ViewState) : List FormData :=
  s.initial

/-- BaseFormSetMixin.get_formset_class: the configured formset class
override, or None. -/
def BaseFormSetMixin.get_formset_class (s : ViewState) : Option Nat :=
  s.formset_class

/-- BaseFormSetMixin.get_form_class: the configured form class, or None. -/
def BaseFormSetMixin.get_form_class (s : ViewState) : Option Nat :=
  s.form_class

/-- BaseFormSetMixin.get_formset_kwargs: starts from an empty dict and,
when request.method is in (POST, PUT), adds the submitted data and the
uploaded files. -/
def BaseFormSetMixin.get_formset_kwargs (s : ViewState) : Dict PyVal :=
  let kwargs : Dict PyVal := []
  if s.request.method = Method.POST ∨ s.request.method = Method.PUT then
    Dict.update kwargs
      [("data", PyVal.formData s.request.POST),
       ("files", PyVal.fileData s.request.FILES)]
  else
    kwargs

/-- BaseFormSetMixin.get_factory_kwargs: the tuning parameters, plus the
formset class override when one is configured (a Python class object is
always truthy, so the test is just on None). -/
def BaseFormSetMixin.get_factory_kwargs (s : ViewState) : Dict PyVal :=
  let kwargs : Dict PyVal :=
    [("extra", PyVal.num s.extra),
     ("max_num", PyVal.ofOptNat s.max_num),
     ("can_order", PyVal.bool s.can_order),
     ("can_delete", PyVal.bool s.can_delete)]
  match BaseFormSetMixin.get_formset_class s with
  | Option.some c => Dict.set kwargs "formset" (PyVal.cls c)
  | Option.none => kwargs

/-- DocumentFormSetMixin.get_formset_kwargs: the base keyword arguments
plus the queryset selecting the documents to edit. -/
def DocumentFormSetMixin.get_formset_kwargs (s : ViewState) : Dict PyVal :=
  Dict.set (BaseFormSetMixin.get_formset_kwargs s) "queryset"
    (PyVal.docList (MultipleDocumentsMixin.get_queryset s))

/-- DocumentFormSetMixin.get_factory_kwargs: the base factory keyword
arguments updated with exclude / fields / formfield_callback, plus the form
class and the formset class override when configured. -/
def DocumentFormSetMixin.get_factory_kwargs (s : ViewState) : Dict PyVal :=
  let kwargs := Dict.update (BaseFormSetMixin.get_factory_kwargs s)
    [("exclude", PyVal.ofOptStrList s.exclude),
     ("fields", PyVal.ofOptStrList s.fields),
     ("formfield_callback", PyVal.ofOptCallback s.formfield_callback)]
  let kwargs :=
    match BaseFormSetMixin.get_form_class s with
    | Option.some f => Dict.set kwargs "form" (PyVal.cls f)
    | Option.none => kwargs
  match BaseFormSetMixin.get_formset_class s with
  | Option.some c => Dict.set kwargs "formset" (PyVal.cls c)
  | Option.none => kwargs

/-- The formset object returned by instantiating the factory-made class:
since documentformset_factory and the class it returns live in the
external mongodbforms library, the formset is modelled as the record of
everything passed to them.  formArg is the positional form argument of the
factory call (present only in the BaseFormSetMixin variant, and may be
None there). -/
structure Formset where
  doc : Nat
  formArg : Option (Option Nat)
  factoryKwargs : Dict PyVal
  initialArg : List FormData
  instKwargs : Dict PyVal
deriving DecidableEq, Repr

/-- BaseFormSetMixin.construct_formset as specialised in the plain
FormSetView: documentformset_factory(document, get_form_class(),
**get_factory_kwargs()) instantiated with initial=get_initial() and
**get_formset_kwargs(). -/
def FormSetView.construct_formset (s : ViewState) : Formset :=
  { doc := s.document
    formArg := Option.some (BaseFormSetMixin.get_form_class s)
    factoryKwargs := BaseFormSetMixin.get_factory_kwargs s
    initialArg := BaseFormSetMixin.get_initial s
    instKwargs := BaseFormSetMixin.get_formset_kwargs s }

/-- BaseFormSetMixin.construct_formset as specialised in document formset
views, where DocumentFormSetMixin overrides get_formset (no positional
form argument) and both keyword bundles. -/
def DocumentFormSetView.construct_formset (s : ViewState) : Formset :=
  { doc := s.document
    formArg := Option.none
    factoryKwargs := DocumentFormSetMixin.get_factory_kwargs s
    initialArg := BaseFormSetMixin.get_initial s
    instKwargs := DocumentFormSetMixin.get_formset_kwargs s }

/-- A value stored in a template context: an ordinary value or a formset
object. -/
inductive CtxVal where
  | py (v : PyVal)
  | fs (f : Formset)
deriving DecidableEq, Repr

/-- A response from a handler: an HTTP redirect or a rendered template
carrying its context (render_to_response belongs to the host framework and
is observationally just the context it is given). -/
inductive Response where
  | redirect (url : String)
  | render (context : Dict CtxVal)
deriving DecidableEq, Repr

/-- FormSetMixin.get_success_url: the configured success_url when truthy
(a non-empty string), else request.get_full_path(). -/
def FormSetMixin.get_success_url (s : ViewState) : String :=
  match s.success_url with
  | Option.some u => if u = "" then s.request.full_path else u
  | Option.none => s.request.full_path

/-- FormSetMixin.formset_valid: redirect to get_success_url(). -/
def FormSetMixin.formset_valid (s : ViewState) : Response :=
  Response.redirect (FormSetMixin.get_success_url s)

/-- FormSetMixin.get_context_data, i.e. ContextMixin.get_context_data as
inherited by the plain FormSetView. -/
def FormSetView.get_context_data (kwargs : Dict CtxVal) : Dict CtxVal :=
  ContextMixin.get_context_data kwargs

/-- DocumentFormSetMixin.get_context_data: when object_list is truthy it
is injected under the key object_list and, when get_context_object_name
yields a name, under that name as well; then the caller-supplied keyword
entries are assigned on top and the result goes through
ContextMixin.get_context_data. -/
def DocumentFormSetMixin.get_context_data (s : ViewState) (kwargs : Dict CtxVal) : Dict CtxVal :=
  let context : Dict CtxVal := []
  let context :=
    match s.object_list with
    | Option.some ol =>
      if ol = [] then context
      else
        let context := Dict.set context "object_list" (CtxVal.py (PyVal.docList ol))
        match MultipleDocumentsMixin.get_context_object_name s with
        | Option.some n => Dict.set context n (CtxVal.py (PyVal.docList ol))
        | Option.none => context
    | Option.none => context
  ContextMixin.get_context_data (Dict.update context kwargs)

/-- FormSetMixin.formset_invalid as specialised in the plain FormSetView:
re-render the context with the bound formset under the key formset. -/
def FormSetView.formset_invalid (formset : Formset) : Response :=
  Response.render (FormSetView.get_context_data (Dict.set [] "formset" (CtxVal.fs formset)))

/-- FormSetMixin.formset_invalid as specialised in document formset views,
where self.get_context_data resolves to DocumentFormSetMixin. -/
def DocumentFormSetView.formset_invalid (s : ViewState) (formset : Formset) : Response :=
  Response.render (DocumentFormSetMixin.get_context_data s (Dict.set [] "formset" (CtxVal.fs formset)))

/-- DocumentFormSetMixin.formset_valid: assign formset.save() to
self.object_list, then delegate to FormSetMixin.formset_valid.  The save
operation belongs to the external library, so it is an oracle argument. -/
def DocumentFormSetMixin.formset_valid (s : ViewState) (formset : Formset)
    (save : Formset → List Doc) : ViewState × Response :=
  let s := { s with object_list := Option.some (save formset) }
  (s, FormSetMixin.formset_valid s)

/-- ProcessFormSetView.get as specialised in the plain FormSetView. -/
def FormSetView.get (s : ViewState) : ViewState × Response :=
  let formset := FormSetView.construct_formset s
  (s, Response.render (FormSetView.get_context_data (Dict.set [] "formset" (CtxVal.fs formset))))

/-- ProcessFormSetView.post as specialised in the plain FormSetView;
formset.is_valid() is an oracle argument. -/
def FormSetView.post (s : ViewState) (is_valid : Formset → Bool) : ViewState × Response :=
  let formset := FormSetView.construct_formset s
  if is_valid formset then (s, FormSetMixin.formset_valid s)
  else (s, FormSetView.formset_invalid formset)

/-- ProcessFormSetView.put as specialised in the plain FormSetView:
delegates unchanged to post. -/
def FormSetView.put (s : ViewState) (is_valid : Formset → Bool) : ViewState × Response :=
  FormSetView.post s is_valid

/-- BaseDocumentFormSetView.get: assign get_queryset() to object_list
first, then run ProcessFormSetView.get with the document overrides. -/
def BaseDocumentFormSetView.get (s : ViewState) : ViewState × Response :=
  let s := { s with object_list := Option.some (MultipleDocumentsMixin.get_queryset s) }
  let formset := DocumentFormSetView.construct_formset s
  (s, Response.render (DocumentFormSetMixin.get_context_data s (Dict.set [] "formset" (CtxVal.fs formset))))

/-- BaseDocumentFormSetView.post: assign get_queryset() to object_list
first, then run ProcessFormSetView.post with the document overrides. -/
def BaseDocumentFormSetView.post (s : ViewState) (is_valid : Formset → Bool)
    (save : Formset → List Doc) : ViewState × Response :=
  let s := { s with object_list := Option.some (MultipleDocumentsMixin.get_queryset s) }
  let formset := DocumentFormSetView.construct_formset s
  if is_valid formset then DocumentFormSetMixin.formset_valid s formset save
  else (s, DocumentFormSetView.formset_invalid s formset)

/-- ProcessFormSetView.put as inherited by BaseDocumentFormSetView:
delegates unchanged to post. -/
def BaseDocumentFormSetView.put (s : ViewState) (is_valid : Formset → Bool)
    (save : Formset → List Doc) : ViewState × Response :=
  BaseDocumentFormSetView.post s is_valid save

/-- The verb dispatch of the host framework restricted to the verbs this
layer handles, for the composed document formset view. -/
def DocumentFormSetView.dispatch (s : ViewState) (is_valid : Formset → Bool)
    (save : Formset → List Doc) : ViewState × Response :=
  match s.request.method with
  | Method.GET => BaseDocumentFormSetView.get s
  | Method.POST => BaseDocumentFormSetView.post s is_valid save
  | Method.PUT => BaseDocumentFormSetView.put s is_valid save

/-! Dictionary lemmas shared by the claim proofs. -/

theorem Dict.get_set_self {α : Type} (d : Dict α) (k : String) (v : α) :
    Dict.get? (Dict.set d k v) k = Option.some v := by
  induction d with
  | nil => simp [Dict.set, Dict.get?]
  | cons p d ih =>
    by_cases h : p.1 = k
    · simp [Dict.set, Dict.get?, h]
    · simp [Dict.set, Dict.get?, h, ih]

theorem Dict.get_set_ne {α : Type} (d : Dict α) (k k' : String) (v : α) (h : k ≠ k') :
    Dict.get? (Dict.set d k v) k' = Dict.get? d k' := by
  induction d with
  | nil => simp [Dict.set, Dict.get?, h]
  | cons p d ih =>
    by_cases hp : p.1 = k
    · simp [Dict.set, Dict.get?, hp, h]
    · simp only [Dict.set, Dict.get?, hp, if_false]
      by_cases hp' : p.1 = k'
      · simp [Dict.get?, hp']
      · simp [Dict.get?, hp', ih]

theorem Dict.get_eq_none_of_not_mem {α : Type} (d : Dict α) (k : String)
    (h : k ∉ d.map Prod.fst) : Dict.get? d k = Option.none := by
  induction d with
  | nil => rfl
  | cons p d ih =>
    simp only [List.map_cons, List.mem_cons] at h
    push_neg at h
    have h1 : ¬ p.1 = k := fun hp => h.1 hp.symm
    simp [Dict.get?, h1, ih h.2]

theorem Dict.get_update_of_not_mem {α : Type} (d e : Dict α) (k : String)
    (h : Dict.get? e k = Option.none) :
    Dict.get? (Dict.update d e) k = Dict.get? d k := by
  induction e generalizing d with
  | nil => rfl
  | cons p e ih =>
    simp only [Dict.get?] at h
    by_cases hp : p.1 = k
    · simp [hp] at h
    · simp only [hp, if_false] at h
      have : Dict.update d (p :: e) = Dict.update (Dict.set d p.1 p.2) e := rfl
      rw [this, ih _ h, Dict.get_set_ne _ _ _ _ hp]

theorem Dict.get_update_of_mem {α : Type} (d e : Dict α) (k : String) (v : α)
    (hnd : (e.map Prod.fst).Nodup) (h : Dict.get? e k = Option.some v) :
    Dict.get? (Dict.update d e) k = Option.some v := by
  induction e generalizing d with
  | nil => simp [Dict.get?] at h
  | cons p e ih =>
    simp only [List.map_cons, List.nodup_cons] at hnd
    have step : Dict.update d (p :: e) = Dict.update (Dict.set d p.1 p.2) e := rfl
    by_cases hp : p.1 = k
    · subst hp
      have he : Dict.get? e p.1 = Option.none :=
        Dict.get_eq_none_of_not_mem _ _ hnd.1
      rw [step, Dict.get_update_of_not_mem _ _ _ he, Dict.get_set_self]
      simpa [Dict.get?] using h
    · simp only [Dict.get?, hp, if_false] at h
      rw [step, ih _ hnd.2 h]

/-! Concrete states used by witnesses and counterexamples. -/

/-- A concrete POST request. -/
def sampleRequest : Request :=
  { method := Method.POST
    POST := [("form-0-name", "alpha")]
    FILES := []
    full_path := "/docs/" }

/-- A concrete document formset view state. -/
def sampleState : ViewState :=
  { document := 1
    initial := [[("name", "x")]]
    form_class := Option.some 7
    formset_class := Option.none
    success_url := Option.some "/done/"
    extra := 2
    max_num := Option.none
    can_order := false
    can_delete := false
    exclude := Option.none
    fields := Option.some ["name"]
    formfield_callback := Option.none
    context_object_name_val := Option.some "docs"
    queryset_result := [1, 2]
    request := sampleRequest
    object_list := Option.none }

/-! Claim theorems. -/

/-- C1: on a document formset view, when the submitted (POST) formset
validates, formset_valid first assigns the collection returned by the save
operation to object_list and then delegates to the base success handler,
which returns a redirect; the new object_list equals exactly the value
returned by save. -/
theorem C1_formset_valid_saves_then_redirects (s : ViewState)
    (is_valid : Formset → Bool) (save : Formset → List Doc)
    (h : is_valid (DocumentFormSetView.construct_formset
        { s with object_list := Option.some (MultipleDocumentsMixin.get_queryset s) }) = true) :
    (BaseDocumentFormSetView.post s is_valid save).1.object_list
      = Option.some (save (DocumentFormSetView.construct_formset
          { s with object_list := Option.some (MultipleDocumentsMixin.get_queryset s) })) ∧
    (BaseDocumentFormSetView.post s is_valid save).2
      = Response.redirect (FormSetMixin.get_success_url
          (BaseDocumentFormSetView.post s is_valid save).1) := by
  simp [BaseDocumentFormSetView.post, DocumentFormSetMixin.formset_valid,
    FormSetMixin.formset_valid, h]

/-- C1 witness at a concrete state, validity oracle and save oracle. -/
theorem C1_witness :
    (BaseDocumentFormSetView.post sampleState (fun _ => true) (fun _ => [42])).1.object_list
      = Option.some [42] ∧
    (BaseDocumentFormSetView.post sampleState (fun _ => true) (fun _ => [42])).2
      = Response.redirect "/done/" := by
  have h := C1_formset_valid_saves_then_redirects sampleState
    (fun _ => true) (fun _ => [42]) rfl
  exact ⟨h.1, by rw [h.2]; rfl⟩

/-- C2: when the submitted formset fails validation, the request is routed
to formset_invalid, the re-rendered context carries that same bound
formset under the key formset, the save operation is never invoked (the
whole outcome is independent of the save oracle), and object_list keeps
the fetched queryset rather than any saved collection. -/
theorem C2_invalid_rerenders_without_saving (s : ViewState)
    (is_valid : Formset → Bool) (saveA saveB : Formset → List Doc)
    (h : is_valid (DocumentFormSetView.construct_formset
        { s with object_list := Option.some (MultipleDocumentsMixin.get_queryset s) }) = false) :
    (BaseDocumentFormSetView.post s is_valid saveA).2
      = DocumentFormSetView.formset_invalid
          { s with object_list := Option.some (MultipleDocumentsMixin.get_queryset s) }
          (DocumentFormSetView.construct_formset
            { s with object_list := Option.some (MultipleDocumentsMixin.get_queryset s) }) ∧
    Dict.get? (DocumentFormSetMixin.get_context_data
        { s with object_list := Option.some (MultipleDocumentsMixin.get_queryset s) }
        (Dict.set [] "formset" (CtxVal.fs (DocumentFormSetView.construct_formset
          { s with object_list := Option.some (MultipleDocumentsMixin.get_queryset s) }))))
        "formset"
      = Option.some (CtxVal.fs (DocumentFormSetView.construct_formset
          { s with object_list := Option.some (MultipleDocumentsMixin.get_queryset s) })) ∧
    BaseDocumentFormSetView.post s is_valid saveA
      = BaseDocumentFormSetView.post s is_valid saveB ∧
    (BaseDocumentFormSetView.post s is_valid saveA).1.object_list
      = Option.some (MultipleDocumentsMixin.get_queryset s) := by
  refine ⟨?_, ?_, ?_, ?_⟩
  · simp [BaseDocumentFormSetView.post, h]
  · exact Dict.get_update_of_mem _ _ _ _ (by simp [Dict.set]) rfl
  · simp [BaseDocumentFormSetView.post, h]
  · simp [BaseDocumentFormSetView.post, h]

/-- C2 witness at a concrete state with a failing validity oracle and two
different save oracles. -/
theorem C2_witness :
    BaseDocumentFormSetView.post sampleState (fun _ => false) (fun _ => [5])
      = BaseDocumentFormSetView.post sampleState (fun _ => false) (fun _ => [6]) ∧
    (BaseDocumentFormSetView.post sampleState (fun _ => false) (fun _ => [5])).1.object_list
      = Option.some [1, 2] := by
  have h := C2_invalid_rerenders_without_saving sampleState
    (fun _ => false) (fun _ => [5]) (fun _ => [6]) rfl
  exact ⟨h.2.2.1, h.2.2.2⟩

/-- C3 counterexample: when success_url is set to the empty string, the
computed redirect target is the request path, not the configured
success_url, so the claim as stated fails at this input. -/
theorem C3_counterexample :
    ({ sampleState with success_url := Option.some "" } : ViewState).success_url
        = Option.some "" ∧
    FormSetMixin.get_success_url { sampleState with success_url := Option.some "" }
        ≠ "" ∧
    FormSetMixin.get_success_url { sampleState with success_url := Option.some "" }
        = "/docs/" := by
  refine ⟨rfl, ?_, rfl⟩
  decide

/-- C3 (amended): the redirect target computed by get_success_url equals
the configured success_url whenever it is set to a non-empty string, and
otherwise (unset, or set to the empty string) equals the full path of the
current request. -/
theorem C3_get_success_url (s : ViewState) :
    (∀ u : String, s.success_url = Option.some u → u ≠ "" →
      FormSetMixin.get_success_url s = u) ∧
    ((s.success_url = Option.none ∨ s.success_url = Option.some "") →
      FormSetMixin.get_success_url s = s.request.full_path) := by
  constructor
  · intro u hu hne
    simp [FormSetMixin.get_success_url, hu, hne]
  · rintro (h | h) <;> simp [FormSetMixin.get_success_url, h]

/-- C3 witness at a concrete configured state and a concrete unset one. -/
theorem C3_witness :
    FormSetMixin.get_success_url sampleState = "/done/" ∧
    FormSetMixin.get_success_url { sampleState with success_url := Option.none }
      = "/docs/" := by
  constructor
  · exact (C3_get_success_url sampleState).1 "/done/" rfl (by decide)
  · exact (C3_get_success_url _).2 (Or.inl rfl)

/-- C5: a PUT request produces exactly the same routing outcome and
response as a POST request with the identical body: put delegates
unchanged to post, and dispatching a request whose method is PUT gives the
same result as dispatching the same request with method POST. -/
theorem C5_put_equals_post (s : ViewState) (is_valid : Formset → Bool)
    (save : Formset → List Doc) (h : s.request.method = Method.PUT) :
    BaseDocumentFormSetView.put s is_valid save
      = BaseDocumentFormSetView.post s is_valid save ∧
    FormSetView.put s is_valid = FormSetView.post s is_valid ∧
    (DocumentFormSetView.dispatch s is_valid save).2
      = (DocumentFormSetView.dispatch
          { s with request := { s.request with method := Method.POST } } is_valid save).2 ∧
    (DocumentFormSetView.dispatch s is_valid save).1.object_list
      = (DocumentFormSetView.dispatch
          { s with request := { s.request with method := Method.POST } } is_valid save).1.object_list := by
  obtain ⟨doc, ini, fc, fsc, su, ex, mn, co, cd, excl, flds, fcb, con, qr, req, ol⟩ := s
  obtain ⟨m, pd, fl, fp⟩ := req
  have hm : m = Method.PUT := h
  subst hm
  refine ⟨rfl, rfl, ?_, ?_⟩ <;>
  · simp [DocumentFormSetView.dispatch, BaseDocumentFormSetView.put,
      BaseDocumentFormSetView.post, DocumentFormSetView.construct_formset,
      DocumentFormSetMixin.get_formset_kwargs, DocumentFormSetMixin.get_factory_kwargs,
      BaseFormSetMixin.get_formset_kwargs, BaseFormSetMixin.get_factory_kwargs,
      BaseFormSetMixin.get_formset_class, BaseFormSetMixin.get_form_class,
      BaseFormSetMixin.get_initial, MultipleDocumentsMixin.get_queryset,
      DocumentFormSetMixin.formset_valid, DocumentFormSetView.formset_invalid,
      DocumentFormSetMixin.get_context_data, MultipleDocumentsMixin.get_context_object_name,
      FormSetMixin.formset_valid, FormSetMixin.get_success_url,
      ContextMixin.get_context_data]
    all_goals split <;> simp [*]

/-- C5 witness at a concrete PUT request. -/
theorem C5_witness :
    BaseDocumentFormSetView.put
        { sampleState with request := { sampleRequest with method := Method.PUT } }
        (fun _ => true) (fun _ => [9])
      = BaseDocumentFormSetView.post
        { sampleState with request := { sampleRequest with method := Method.PUT } }
        (fun _ => true) (fun _ => [9]) :=
  (C5_put_equals_post
    { sampleState with request := { sampleRequest with method := Method.PUT } }
    (fun _ => true) (fun _ => [9]) rfl).1

/-- C4: the formset-instantiation keyword bundle built by
get_formset_kwargs contains the submitted data and the uploaded files if
and only if the request method is POST or PUT; in particular a GET request
yields an unbound formset (no data entry in the instantiation bundle of
either view flavour), and the factory bundle carries the configured extra
and max_num. -/
theorem C4_formset_kwargs_bound_iff_post_put (s : ViewState) :
    ((Dict.get? (BaseFormSetMixin.get_formset_kwargs s) "data").isSome = true
      ↔ (s.request.method = Method.POST ∨ s.request.method = Method.PUT)) ∧
    ((Dict.get? (BaseFormSetMixin.get_formset_kwargs s) "files").isSome = true
      ↔ (s.request.method = Method.POST ∨ s.request.method = Method.PUT)) ∧
    ((s.request.method = Method.POST ∨ s.request.method = Method.PUT) →
      Dict.get? (BaseFormSetMixin.get_formset_kwargs s) "data"
          = Option.some (PyVal.formData s.request.POST) ∧
      Dict.get? (BaseFormSetMixin.get_formset_kwargs s) "files"
          = Option.some (PyVal.fileData s.request.FILES)) ∧
    (s.request.method = Method.GET →
      BaseFormSetMixin.get_formset_kwargs s = [] ∧
      Dict.get? (FormSetView.construct_formset s).instKwargs "data" = Option.none ∧
      Dict.get? (DocumentFormSetView.construct_formset s).instKwargs "data" = Option.none) ∧
    Dict.get? (FormSetView.construct_formset s).factoryKwargs "extra"
        = Option.some (PyVal.num s.extra) ∧
    Dict.get? (FormSetView.construct_formset s).factoryKwargs "max_num"
        = Option.some (PyVal.ofOptNat s.max_num) := by
  cases hm : s.request.method <;>
  cases hc : s.formset_class <;>
  simp [BaseFormSetMixin.get_formset_kwargs, BaseFormSetMixin.get_factory_kwargs,
    BaseFormSetMixin.get_formset_class, FormSetView.construct_formset,
    DocumentFormSetView.construct_formset, DocumentFormSetMixin.get_formset_kwargs,
    DocumentFormSetMixin.get_factory_kwargs, MultipleDocumentsMixin.get_queryset,
    Dict.get?, Dict.set, Dict.update, hm, hc]

/-- C4 witness: at a concrete POST state the bundle is bound, and at the
same state with method GET both constructed formsets are unbound. -/
theorem C4_witness :
    (Dict.get? (BaseFormSetMixin.get_formset_kwargs sampleState) "data").isSome = true ∧
    Dict.get? (DocumentFormSetView.construct_formset
        { sampleState with
          request := { sampleRequest with method := Method.GET } }).instKwargs "data"
      = Option.none := by
  constructor
  · exact ((C4_formset_kwargs_bound_iff_post_put sampleState).1).mpr (Or.inl rfl)
  · exact (((C4_formset_kwargs_bound_iff_post_put
      { sampleState with
        request := { sampleRequest with method := Method.GET } }).2.2.2.1) rfl).2.2

/-- C7: the configuration values extra, max_num, can_order, can_delete
and, for document formsets, exclude, fields and formfield_callback appear
unchanged under the same-named keys in the factory keyword bundle, and the
handlers leave every configuration field of the view unchanged (only
object_list is ever reassigned). -/
theorem C7_config_passed_unchanged (s : ViewState)
    (is_valid : Formset → Bool) (save : Formset → List Doc) :
    Dict.get? (DocumentFormSetMixin.get_factory_kwargs s) "extra"
        = Option.some (PyVal.num s.extra) ∧
    Dict.get? (DocumentFormSetMixin.get_factory_kwargs s) "max_num"
        = Option.some (PyVal.ofOptNat s.max_num) ∧
    Dict.get? (DocumentFormSetMixin.get_factory_kwargs s) "can_order"
        = Option.some (PyVal.bool s.can_order) ∧
    Dict.get? (DocumentFormSetMixin.get_factory_kwargs s) "can_delete"
        = Option.some (PyVal.bool s.can_delete) ∧
    Dict.get? (DocumentFormSetMixin.get_factory_kwargs s) "exclude"
        = Option.some (PyVal.ofOptStrList s.exclude) ∧
    Dict.get? (DocumentFormSetMixin.get_factory_kwargs s) "fields"
        = Option.some (PyVal.ofOptStrList s.fields) ∧
    Dict.get? (DocumentFormSetMixin.get_factory_kwargs s) "formfield_callback"
        = Option.some (PyVal.ofOptCallback s.formfield_callback) ∧
    Dict.get? (BaseFormSetMixin.get_factory_kwargs s) "extra"
        = Option.some (PyVal.num s.extra) ∧
    Dict.get? (BaseFormSetMixin.get_factory_kwargs s) "max_num"
        = Option.some (PyVal.ofOptNat s.max_num) ∧
    Dict.get? (BaseFormSetMixin.get_factory_kwargs s) "can_order"
        = Option.some (PyVal.bool s.can_order) ∧
    Dict.get? (BaseFormSetMixin.get_factory_kwargs s) "can_delete"
        = Option.some (PyVal.bool s.can_delete) ∧
    (BaseDocumentFormSetView.post s is_valid save).1
        = { s with object_list := (BaseDocumentFormSetView.post s is_valid save).1.object_list } ∧
    (BaseDocumentFormSetView.get s).1
        = { s with object_list := Option.some s.queryset_result } := by
  have hpost : (BaseDocumentFormSetView.post s is_valid save).1
      = { s with object_list := (BaseDocumentFormSetView.post s is_valid save).1.object_list } := by
    simp only [BaseDocumentFormSetView.post, DocumentFormSetMixin.formset_valid,
      MultipleDocumentsMixin.get_queryset]
    split <;> rfl
  have hget : (BaseDocumentFormSetView.get s).1
      = { s with object_list := Option.some s.queryset_result } := rfl
  refine ⟨?_, ?_, ?_, ?_, ?_, ?_, ?_, ?_, ?_, ?_, ?_, hpost, hget⟩ <;>
  cases hc : s.formset_class <;>
  cases hf : s.form_class <;>
  simp [BaseFormSetMixin.get_factory_kwargs, BaseFormSetMixin.get_formset_class,
    BaseFormSetMixin.get_form_class, DocumentFormSetMixin.get_factory_kwargs,
    Dict.get?, Dict.set, Dict.update, hc, hf]

/-- C6: when a candidate document list exists (is truthy), get_context_data
populates both the generic object_list key and the model-specific key with
that list before merging the caller-supplied keyword entries, so any
caller-supplied entry takes precedence over the injected ones. -/
theorem C6_context_injection_before_merge (s : ViewState) (kwargs : Dict CtxVal)
    (ol : List Doc) (hol : s.object_list = Option.some ol) (hne : ol ≠ [])
    (hnd : (kwargs.map Prod.fst).Nodup) :
    (∀ k v, Dict.get? kwargs k = Option.some v →
      Dict.get? (DocumentFormSetMixin.get_context_data s kwargs) k = Option.some v) ∧
    (Dict.get? kwargs "object_list" = Option.none →
      Dict.get? (DocumentFormSetMixin.get_context_data s kwargs) "object_list"
        = Option.some (CtxVal.py (PyVal.docList ol))) ∧
    (∀ n, s.context_object_name_val = Option.some n → Dict.get? kwargs n = Option.none →
      Dict.get? (DocumentFormSetMixin.get_context_data s kwargs) n
        = Option.some (CtxVal.py (PyVal.docList ol))) := by
  cases hn : s.context_object_name_val with
  | none =>
    have hctx : DocumentFormSetMixin.get_context_data s kwargs
        = Dict.update (Dict.set [] "object_list" (CtxVal.py (PyVal.docList ol))) kwargs := by
      simp [DocumentFormSetMixin.get_context_data, ContextMixin.get_context_data,
        MultipleDocumentsMixin.get_context_object_name, hol, hne, hn]
    refine ⟨?_, ?_, ?_⟩
    · intro k v hv
      rw [hctx]
      exact Dict.get_update_of_mem _ _ _ _ hnd hv
    · intro h0
      rw [hctx, Dict.get_update_of_not_mem _ _ _ h0]
      exact Dict.get_set_self _ _ _
    · intro n hn'
      exact Option.noConfusion hn'
  | some n0 =>
    have hctx : DocumentFormSetMixin.get_context_data s kwargs
        = Dict.update (Dict.set (Dict.set [] "object_list" (CtxVal.py (PyVal.docList ol)))
            n0 (CtxVal.py (PyVal.docList ol))) kwargs := by
      simp [DocumentFormSetMixin.get_context_data, ContextMixin.get_context_data,
        MultipleDocumentsMixin.get_context_object_name, hol, hne, hn]
    refine ⟨?_, ?_, ?_⟩
    · intro k v hv
      rw [hctx]
      exact Dict.get_update_of_mem _ _ _ _ hnd hv
    · intro h0
      rw [hctx, Dict.get_update_of_not_mem _ _ _ h0]
      by_cases h2 : n0 = "object_list"
      · subst h2
        exact Dict.get_set_self _ _ _
      · rw [Dict.get_set_ne _ _ _ _ h2]
        exact Dict.get_set_self _ _ _
    · intro n hn' h0
      injection hn' with hh
      subst hh
      rw [hctx, Dict.get_update_of_not_mem _ _ _ h0]
      exact Dict.get_set_self _ _ _

/-- C6 witness: at a concrete state with a non-empty object list and one
caller-supplied entry, the caller entry survives and both injected keys
carry the object list. -/
theorem C6_witness :
    Dict.get? (DocumentFormSetMixin.get_context_data
        { sampleState with object_list := Option.some [1, 2] }
        [("color", CtxVal.py (PyVal.str "red"))]) "color"
      = Option.some (CtxVal.py (PyVal.str "red")) ∧
    Dict.get? (DocumentFormSetMixin.get_context_data
        { sampleState with object_list := Option.some [1, 2] }
        [("color", CtxVal.py (PyVal.str "red"))]) "object_list"
      = Option.some (CtxVal.py (PyVal.docList [1, 2])) ∧
    Dict.get? (DocumentFormSetMixin.get_context_data
        { sampleState with object_list := Option.some [1, 2] }
        [("color", CtxVal.py (PyVal.str "red"))]) "docs"
      = Option.some (CtxVal.py (PyVal.docList [1, 2])) := by
  have h := C6_context_injection_before_merge
    { sampleState with object_list := Option.some [1, 2] }
    [("color", CtxVal.py (PyVal.str "red"))] [1, 2] rfl (by simp) (by simp)
  exact ⟨h.1 "color" _ rfl, h.2.1 rfl, h.2.2 "docs" rfl rfl⟩

/-- C8: the document formset base view fetches the candidate query and
assigns it to object_list at the start of both GET and POST handling,
before delegating: the state handed on carries the fetched queryset, the
formset built from it wires that queryset into its instantiation bundle,
and after an invalid POST the object list is still the fetched queryset. -/
theorem C8_queryset_fetched_first (s : ViewState) (is_valid : Formset → Bool)
    (save : Formset → List Doc) :
    (BaseDocumentFormSetView.get s).1.object_list = Option.some s.queryset_result ∧
    Dict.get? (DocumentFormSetView.construct_formset
        { s with object_list := Option.some s.queryset_result }).instKwargs "queryset"
      = Option.some (PyVal.docList s.queryset_result) ∧
    (BaseDocumentFormSetView.get s).2
      = Response.render (DocumentFormSetMixin.get_context_data
          { s with object_list := Option.some s.queryset_result }
          (Dict.set [] "formset" (CtxVal.fs (DocumentFormSetView.construct_formset
            { s with object_list := Option.some s.queryset_result })))) ∧
    (is_valid (DocumentFormSetView.construct_formset
        { s with object_list := Option.some s.queryset_result }) = false →
      (BaseDocumentFormSetView.post s is_valid save).1.object_list
        = Option.some s.queryset_result) := by
  refine ⟨rfl, Dict.get_set_self _ _ _, rfl, ?_⟩
  intro h
  simp [BaseDocumentFormSetView.post, MultipleDocumentsMixin.get_queryset, h]

/-- C8 witness at a concrete state with a failing validity oracle. -/
theorem C8_witness :
    (BaseDocumentFormSetView.get sampleState).1.object_list = Option.some [1, 2] ∧
    (BaseDocumentFormSetView.post sampleState (fun _ => false) (fun _ => [9])).1.object_list
      = Option.some [1, 2] := by
  have h := C8_queryset_fetched_first sampleState (fun _ => false) (fun _ => [9])
  exact ⟨h.1, h.2.2.2 rfl⟩

/-- C9: GET handling is deterministic in the request and view state: a
second GET on the state left by a first GET returns the same state and the
same response, hence a structurally identical formset; on a GET request
that formset is unbound and carries the configured initial values. -/
theorem C9_get_idempotent (s : ViewState) (h : s.request.method = Method.GET) :
    BaseDocumentFormSetView.get ((BaseDocumentFormSetView.get s).1)
      = BaseDocumentFormSetView.get s ∧
    Dict.get? (DocumentFormSetView.construct_formset
        { s with object_list := Option.some s.queryset_result }).instKwargs "data"
      = Option.none ∧
    (DocumentFormSetView.construct_formset
        { s with object_list := Option.some s.queryset_result }).initialArg = s.initial := by
  refine ⟨rfl, ?_, rfl⟩
  simp [DocumentFormSetView.construct_formset, DocumentFormSetMixin.get_formset_kwargs,
    BaseFormSetMixin.get_formset_kwargs, MultipleDocumentsMixin.get_queryset,
    Dict.set, Dict.get?, Dict.update, h]

/-- C9 witness at a concrete GET state. -/
theorem C9_witness :
    BaseDocumentFormSetView.get ((BaseDocumentFormSetView.get
        { sampleState with request := { sampleRequest with method := Method.GET } }).1)
      = BaseDocumentFormSetView.get
        { sampleState with request := { sampleRequest with method := Method.GET } } :=
  (C9_get_idempotent
    { sampleState with request := { sampleRequest with method := Method.GET } } rfl).1

/-- C10: when the candidate document list is empty or absent (falsy),
get_context_data injects neither the object_list key nor any
model-specific key: every lookup in the produced context agrees with the
caller-supplied keyword entries. -/
theorem C10_falsy_object_list_injects_nothing (s : ViewState) (kwargs : Dict CtxVal)
    (h : s.object_list = Option.none ∨ s.object_list = Option.some [])
    (hnd : (kwargs.map Prod.fst).Nodup) :
    ∀ k, Dict.get? (DocumentFormSetMixin.get_context_data s kwargs) k
      = Dict.get? kwargs k := by
  intro k
  have hctx : DocumentFormSetMixin.get_context_data s kwargs = Dict.update [] kwargs := by
    rcases h with h | h <;>
    simp [DocumentFormSetMixin.get_context_data, ContextMixin.get_context_data, h]
  rw [hctx]
  cases hk : Dict.get? kwargs k with
  | none =>
    rw [Dict.get_update_of_not_mem _ _ _ hk]
    rfl
  | some v =>
    exact Dict.get_update_of_mem _ _ _ _ hnd hk

/-- C10 witness: with an empty object list, the context holds exactly the
caller-supplied entry and no object_list key. -/
theorem C10_witness :
    Dict.get? (DocumentFormSetMixin.get_context_data
        { sampleState with object_list := Option.some [] }
        [("color", CtxVal.py (PyVal.str "red"))]) "object_list" = Option.none ∧
    Dict.get? (DocumentFormSetMixin.get_context_data
        { sampleState with object_list := Option.some [] }
        [("color", CtxVal.py (PyVal.str "red"))]) "color"
      = Option.some (CtxVal.py (PyVal.str "red")) := by
  have h := C10_falsy_object_list_injects_nothing
    { sampleState with object_list := Option.some [] }
    [("color", CtxVal.py (PyVal.str "red"))] (Or.inr rfl) (by simp)
  exact ⟨(h "object_list").trans rfl, (h "color").trans rfl⟩

end MongoGeneric
